import Mathlib

/-
Verification development for the etherscan contract-verification pipeline
(src/etherscan.ts of hardhat-deploy).  The TypeScript source is shallowly
embedded: JSON objects become association lists (key order preserved, as in
JS objects), fallible steps become Option/explicit outcome values, and the
network is an oracle of pre-recorded responses threaded through the pipeline.
-/

namespace HDE

-- ===== Data model (deployment records, metadata, compiler input) =====

structure SourceEntry where
  content : String
  -- any further fields of a metadata source entry (keccak256, urls, ...),
  -- kept opaque; the compiler-input builder discards them
  extra : List (String × String)
deriving DecidableEq, Repr

structure CompilerInfo where
  version : String
deriving DecidableEq, Repr

structure Settings where
  -- metadata.settings.compilationTarget : { filepath : contractName }
  compilationTarget : Option (List (String × String))
  -- settings.libraries : { contractNamePath : { libraryName : address } }
  libraries : Option (List (String × List (String × String)))
  -- all remaining settings fields, opaque
  other : List (String × String)
deriving DecidableEq, Repr

structure Metadata where
  language : String
  compiler : CompilerInfo
  settings : Settings
  sources : List (String × SourceEntry)
deriving DecidableEq, Repr

structure AbiEntry where
  type : String
  -- constructor.inputs, as opaque parameter-type descriptions
  inputs : List String
deriving DecidableEq, Repr

structure Deployment where
  address : String
  -- the raw metadata JSON string of the record, pre-parsed here; none models
  -- an absent/falsy string (JSON.parse of a present string is assumed to
  -- succeed, as the original would otherwise throw)
  metadata : Option Metadata
  abi : List AbiEntry
  args : Option (List String)
  libraries : Option (List (String × String))
  solcInputHash : Option String
deriving DecidableEq, Repr

structure ContractCtx where
  name : String
  deployment : Deployment
deriving DecidableEq, Repr

structure Config where
  etherscanApiKey : Option String
  license : Option String
  fallbackOnSolcInput : Bool
  forceLicense : Bool
deriving DecidableEq, Repr

structure SolcInput where
  language : String
  settings : Settings
  sources : List (String × SourceEntry)
deriving DecidableEq, Repr

-- ===== Association-list helpers (JS object semantics) =====

def alookup {α : Type} : List (String × α) → String → Option α
  | [], _ => none
  | (k1, v) :: rest, k => if k1 = k then some v else alookup rest k

-- JS `obj[k] = v`: replace in place when the key exists, append otherwise
def setKey {α : Type} : List (String × α) → String → α → List (String × α)
  | [], k, v => [(k, v)]
  | (k1, v1) :: rest, k, v =>
    if k1 = k then (k, v) :: rest else (k1, v1) :: setKey rest k v

-- ===== License extractor =====
-- Models the scan of  /\/\/\s*\t*SPDX-License-Identifier:\s*\t*(.*?)[\s\\]/g
-- over the source text (the `\t*` after `\s*` is redundant).  The lazy
-- capture together with the greedy-but-backtrackable `\s*` means: the capture
-- is the run of characters up to the first whitespace-or-backslash after the
-- identifier prefix; when no such terminator exists but the whitespace run
-- before the capture is non-empty, the regex backtracks one whitespace
-- character and matches with an empty capture.

-- the common JS \s code points (space, \t, \n, \r, \v, \f, nbsp, line/para
-- separator, BOM)
def isJsWs (c : Char) : Bool :=
  c = ' ' || c = '\t' || c = '\n' || c = '\r' || c = Char.ofNat 11 ||
  c = Char.ofNat 12 || c = Char.ofNat 160 || c = Char.ofNat 0x2028 ||
  c = Char.ofNat 0x2029 || c = Char.ofNat 0xfeff

def isTermChar (c : Char) : Bool :=
  isJsWs c || c = '\\'

def dropPrefixChars : List Char → List Char → Option (List Char)
  | [], cs => some cs
  | _ :: _, [] => none
  | p :: ps, c :: cs => if p = c then dropPrefixChars ps cs else none

-- split at the first terminator character: (capture, rest after terminator)
def splitAtTerm : List Char → Option (List Char × List Char)
  | [] => none
  | c :: cs =>
    if isTermChar c then some ([], cs)
    else
      match splitAtTerm cs with
      | some (cap, rest) => some (c :: cap, rest)
      | none => none

def spdxLit : List Char := "SPDX-License-Identifier:".toList

-- try to match the regex at the start of cs; returns (capture, rest of input
-- after the whole match)
def matchSpdxAt (cs : List Char) : Option (String × List Char) :=
  match cs with
  | '/' :: '/' :: r0 =>
    match dropPrefixChars spdxLit (r0.dropWhile isJsWs) with
    | none => none
    | some r2 =>
      match splitAtTerm (r2.dropWhile isJsWs) with
      | some (cap, rest) => some (String.mk cap, rest)
      | none =>
        -- no terminator until end of input: backtrack one whitespace char
        -- (possible only when the whitespace run was non-empty) and match
        -- with an empty capture
        if (r2.dropWhile isJsWs).length < r2.length then
          some ("", r2.dropWhile isJsWs)
        else none
  | _ => none

-- global scan (the g flag): resume after each match, advance one character
-- after a failed position; fuel bounds the recursion and never runs out for
-- fuel = length + 1 since every step consumes at least one character
def scanSpdx : Nat → List Char → List String
  | 0, _ => []
  | _ + 1, [] => []
  | fuel + 1, c :: cs =>
    match matchSpdxAt (c :: cs) with
    | some (cap, rest) => cap :: scanSpdx fuel rest
    | none => scanSpdx fuel cs

def extractLicenseFromSources (metadata : String) : List String :=
  let found := scanSpdx (metadata.toList.length + 1) metadata.toList
  -- de-duplicate, keeping the order of first occurrence
  found.foldl (fun acc m => if acc.contains m then acc else acc ++ [m]) []

def extractOneLicenseFromSourceFile (source : String) : Option String :=
  (extractLicenseFromSources source).head?

-- ===== License table and resolver =====

def getLicenseType (license : String) : Option Nat :=
  if license = "None" then some 1
  else if license = "UNLICENSED" then some 2
  else if license = "MIT" then some 3
  else if license = "GPL-2.0" then some 4
  else if license = "GPL-3.0" then some 5
  else if license = "LGPL-2.1" then some 6
  else if license = "LGPL-3.0" then some 7
  else if license = "BSD-2-Clause" then some 8
  else if license = "BSD-3-Clause" then some 9
  else if license = "MPL-2.0" then some 10
  else if license = "OSL-3.0" then some 11
  else if license = "Apache-2.0" then some 12
  else if license = "AGPL-3.0" then some 13
  else none

inductive LicenseOutcome where
  | errMissing
  | errMismatch
  | errUnsupportedSource (license : String)
  | errUnsupported (license : String)
  | ok (license : String) (code : Nat)
deriving DecidableEq, Repr

-- JS truthiness of a string-or-undefined value
def strTruthy : Option String → Bool
  | none => false
  | some s => s != ""

-- `licenseType = getLicenseType(license); if (!licenseType) return logError(...)`
def resolveFinal (license : Option String) : LicenseOutcome :=
  match getLicenseType (license.getD "") with
  | none => LicenseOutcome.errUnsupported (license.getD "")
  | some n => LicenseOutcome.ok (license.getD "") n

-- lines 196-226 of etherscan.ts: reconcile --license against the license
-- extracted from the source file
def resolveLicense (licenseOption sourceLicenseType : Option String)
    (forceLicense : Bool) : LicenseOutcome :=
  if !(strTruthy sourceLicenseType) then
    if !(strTruthy licenseOption) then LicenseOutcome.errMissing
    else resolveFinal licenseOption
  else
    if strTruthy licenseOption && (licenseOption != some (sourceLicenseType.getD "")) then
      if !forceLicense then LicenseOutcome.errMismatch
      else resolveFinal licenseOption
    else
      if getLicenseType (sourceLicenseType.getD "") = none then
        LicenseOutcome.errUnsupportedSource (sourceLicenseType.getD "")
      else resolveFinal (some (sourceLicenseType.getD ""))

-- ===== Compiler-input builder =====

-- metadata mode (lines 248-263): copy settings, delete compilationTarget,
-- keep only the content field of every source entry
def buildMetadataSolcInput (md : Metadata) : SolcInput :=
  { language := md.language
    settings := { md.settings with compilationTarget := none }
    sources := md.sources.map (fun p => (p.1, { content := p.2.content, extra := [] })) }

-- ===== Library merging (lines 265-276) =====

-- one loop iteration: settings.libraries[contractNamePath][libraryName] = address
def mergeStep (cnp : String) (m : List (String × List (String × String)))
    (nv : String × String) : List (String × List (String × String)) :=
  setKey m cnp (setKey ((alookup m cnp).getD []) nv.1 nv.2)

def mergeLibraries (libs : Option (List (String × String))) (cnp : String)
    (s : Settings) : Settings :=
  match libs with
  | none => s
  | some ls =>
    { s with libraries := some (ls.foldl (mergeStep cnp) (s.libraries.getD [])) }

-- lookup settings.libraries[cnp][n]
def libAddr (s : Settings) (cnp n : String) : Option String :=
  match s.libraries with
  | none => none
  | some m =>
    match alookup m cnp with
    | none => none
    | some inner => alookup inner n

-- ===== Constructor arguments (lines 281-293) =====

-- the host-provided response/oracle data for one attempt of one contract
structure AbiResp where
  status : String
  result : String
deriving DecidableEq, Repr

structure SubmitResp where
  status : String
  result : String
  message : String
deriving DecidableEq, Repr

structure StatusData where
  status : String
  result : String
  message : String
deriving DecidableEq, Repr

structure AttemptEnv where
  abiResp : AbiResp
  -- JSON.parse(abiData.result): none models a thrown parse error, some v the
  -- parsed value (as an opaque string whose JS truthiness is v ≠ "")
  parsedAbiResult : Option String
  -- contents of <solcInputsPath>/<solcInputHash>.json, none when unreadable
  solcInputFile : Option SolcInput
  -- defaultAbiCoder.encode(constructor.inputs, deployment.args)
  encodeArgs : List String → List String → String
  submitResp : SubmitResp
  statusResponses : List StatusData

def mkConstructorArguments (env : AttemptEnv) (dep : Deployment) : Option String :=
  match dep.args with
  | none => none
  | some args =>
    match dep.abi.find? (fun v => v.type == "constructor") with
    | none => none
    | some ctor => some ((env.encodeArgs ctor.inputs args).drop 2)

-- ===== Submission payload and observable actions =====

structure PostData where
  apikey : Option String
  module : String
  action : String
  contractaddress : String
  sourceCode : SolcInput
  codeformat : String
  contractname : String
  compilerversion : String
  constructorArguements : Option String
  licenseType : Nat
deriving DecidableEq, Repr

def mkPostData (cfg : Config) (dep : Deployment) (si : SolcInput)
    (contractNamePath compilerVersion : String)
    (constructorArguements : Option String) (licenseType : Nat) : PostData :=
  { apikey := cfg.etherscanApiKey
    module := "contract"
    action := "verifysourcecode"
    contractaddress := dep.address
    sourceCode := si
    codeformat := "solidity-standard-json-input"
    contractname := contractNamePath
    compilerversion := "v" ++ compilerVersion
    constructorArguements := constructorArguements
    licenseType := licenseType }

-- the payload logged on a terminal poll failure (lines 357-374): the api key
-- is masked and the source code elided
structure RedactedPayload where
  apikey : String
  module : String
  action : String
  contractaddress : String
  sourceCode : String
  codeformat : String
  contractname : String
  compilerversion : String
  constructorArguements : Option String
  licenseType : Nat
deriving DecidableEq, Repr

inductive Action where
  | httpGetAbi (host address : String)
  | httpPost (host : String) (payload : PostData)
  | httpCheckStatus (host guid : String)
  | sleep (ms : Nat)
  | logFailedVerify (name message result : String)
  | logRedacted (p : RedactedPayload)
deriving DecidableEq, Repr

-- ===== Status poller (lines 334-385) =====

structure StatusCtx where
  name : String
  address : String
  contractNamePath : String
  compilerVersion : String
  constructorArguements : Option String
  licenseType : Nat
deriving DecidableEq, Repr

def redactedOf (sc : StatusCtx) : RedactedPayload :=
  { apikey := "XXXXXX"
    module := "contract"
    action := "verifysourcecode"
    contractaddress := sc.address
    sourceCode := "..."
    codeformat := "solidity-standard-json-input"
    contractname := sc.contractNamePath
    compilerversion := "v" ++ sc.compilerVersion
    constructorArguements := sc.constructorArguements
    licenseType := sc.licenseType }

-- one poll tick: classify a status response (and its logging)
def checkStatus (host guid : String) (sc : StatusCtx) (d : StatusData) :
    Option String × List Action :=
  if d.status = "1" then (some "success", [Action.httpCheckStatus host guid])
  else if d.result = "Pending in queue" then (none, [Action.httpCheckStatus host guid])
  else
    (some "failure",
      [Action.httpCheckStatus host guid,
       Action.logFailedVerify sc.name d.message d.result,
       Action.logRedacted (redactedOf sc)])

-- the while loop (lines 380-385): sleep 10s, poll, repeat until terminal;
-- an exhausted response list models a poll that never turns terminal
def pollLoop (host guid : String) (sc : StatusCtx) :
    List StatusData → Option String × List Action
  | [] => (none, [Action.sleep (10 * 1000)])
  | d :: rest =>
    match checkStatus host guid sc d with
    | (some r, acts) => (some r, Action.sleep (10 * 1000) :: acts)
    | (none, acts) =>
      ((pollLoop host guid sc rest).1,
        Action.sleep (10 * 1000) :: (acts ++ (pollLoop host guid sc rest).2))

-- ===== Per-contract attempt (the body of `submit`) =====

inductive Outcome where
  | abortedAbiParse            -- getabi result failed to JSON.parse
  | skippedAlreadyVerified
  | abortedNoMetadata
  | abortedNoTarget
  -- metadata.sources[contractFilepath] absent: a thrown TypeError in the
  -- original (which would reject the whole batch); kept as a per-contract
  -- outcome here, and no theorem asserts batch behavior past it
  | crashedMissingSource
  | abortedLicense (e : LicenseOutcome)
  | abortedNoSolcInput
  | rejected                   -- submission response status ≠ "1"
  | noGuid
  | verified
  | failed
  | stillPolling               -- poll responses exhausted while pending
deriving DecidableEq, Repr

structure Attempt where
  useSolcInput : Bool
  actions : List Action
  post : Option PostData
  outcome : Outcome
deriving DecidableEq, Repr

-- lines 149-165: the already-verified guard; some o means an early exit
def stageAbiCheck (env : AttemptEnv) : Option Outcome :=
  if env.abiResp.status ≠ "0" then
    match env.parsedAbiResult with
    | none => some Outcome.abortedAbiParse
    | some v => if v ≠ "" then some Outcome.skippedAlreadyVerified else none
  else none

-- lines 174-187: contractFilepath = Object.keys(compilationTarget)[0],
-- contractName = compilationTarget[contractFilepath]; falsy either ⇒ error
def extractTarget (ct : Option (List (String × String))) : Option (String × String) :=
  match ct with
  | none => none
  | some entries =>
    match entries.head? with
    | none => none
    | some (fp, cn) => if fp ≠ "" ∧ cn ≠ "" then some (fp, cn) else none

def pollOutcome (r : Option String) : Outcome :=
  match r with
  | some s => if s = "success" then Outcome.verified else Outcome.failed
  | none => Outcome.stillPolling

-- the tail of the pipeline after the compiler input is assembled: POST the
-- payload, read the guid, poll for the result (lines 295-402 up to fallback)
def afterBuild (cfg : Config) (host : String) (c : ContractCtx) (env : AttemptEnv)
    (u : Bool) (contractNamePath compilerVersion : String) (si : SolcInput) :
    Nat → Attempt :=
  fun licenseType =>
  if env.submitResp.status = "1" then
    if env.submitResp.result = "" then
      { useSolcInput := u
        actions := [Action.httpGetAbi host c.deployment.address,
          Action.httpPost host (mkPostData cfg c.deployment si contractNamePath
            compilerVersion (mkConstructorArguments env c.deployment) licenseType)]
        post := some (mkPostData cfg c.deployment si contractNamePath
          compilerVersion (mkConstructorArguments env c.deployment) licenseType)
        outcome := Outcome.noGuid }
    else
      { useSolcInput := u
        actions := [Action.httpGetAbi host c.deployment.address,
          Action.httpPost host (mkPostData cfg c.deployment si contractNamePath
            compilerVersion (mkConstructorArguments env c.deployment) licenseType)] ++
          (pollLoop host env.submitResp.result
            ⟨c.name, c.deployment.address, contractNamePath, compilerVersion,
              mkConstructorArguments env c.deployment, licenseType⟩
            env.statusResponses).2
        post := some (mkPostData cfg c.deployment si contractNamePath
          compilerVersion (mkConstructorArguments env c.deployment) licenseType)
        outcome := pollOutcome (pollLoop host env.submitResp.result
          ⟨c.name, c.deployment.address, contractNamePath, compilerVersion,
            mkConstructorArguments env c.deployment, licenseType⟩
          env.statusResponses).1 }
  else
    { useSolcInput := u
      actions := [Action.httpGetAbi host c.deployment.address,
        Action.httpPost host (mkPostData cfg c.deployment si contractNamePath
          compilerVersion (mkConstructorArguments env c.deployment) licenseType)]
      post := some (mkPostData cfg c.deployment si contractNamePath
        compilerVersion (mkConstructorArguments env c.deployment) licenseType)
      outcome := Outcome.rejected }

-- one run of the per-contract pipeline (the body of `submit(name, useSolcInput)`)
def submitAttempt (cfg : Config) (host : String) (c : ContractCtx)
    (env : AttemptEnv) (useSolcInput : Bool) : Attempt :=
  match stageAbiCheck env with
  | some o =>
    { useSolcInput := useSolcInput
      actions := [Action.httpGetAbi host c.deployment.address]
      post := none, outcome := o }
  | none =>
  match c.deployment.metadata with
  | none =>
    { useSolcInput := useSolcInput
      actions := [Action.httpGetAbi host c.deployment.address]
      post := none, outcome := Outcome.abortedNoMetadata }
  | some md =>
  match extractTarget md.settings.compilationTarget with
  | none =>
    { useSolcInput := useSolcInput
      actions := [Action.httpGetAbi host c.deployment.address]
      post := none, outcome := Outcome.abortedNoTarget }
  | some (fp, cn) =>
  match alookup md.sources fp with
  | none =>
    { useSolcInput := useSolcInput
      actions := [Action.httpGetAbi host c.deployment.address]
      post := none, outcome := Outcome.crashedMissingSource }
  | some entry =>
  match resolveLicense cfg.license (extractOneLicenseFromSourceFile entry.content)
      cfg.forceLicense with
  | LicenseOutcome.ok _ licenseType =>
    match (if useSolcInput then env.solcInputFile else some (buildMetadataSolcInput md)) with
    | none =>
      { useSolcInput := useSolcInput
        actions := [Action.httpGetAbi host c.deployment.address]
        post := none, outcome := Outcome.abortedNoSolcInput }
    | some si0 =>
      afterBuild cfg host c env useSolcInput (fp ++ ":" ++ cn) md.compiler.version
        { si0 with settings := mergeLibraries c.deployment.libraries (fp ++ ":" ++ cn) si0.settings }
        licenseType
  | e =>
    { useSolcInput := useSolcInput
      actions := [Action.httpGetAbi host c.deployment.address]
      post := none, outcome := Outcome.abortedLicense e }

-- `submit` with its single fallback recursion (lines 391-402): on a terminal
-- poll failure, when this attempt was not already using the full solc input
-- and the caller opted in, run the whole pipeline once more in full-input mode
set_option linter.unusedVariables false in
def submit (cfg : Config) (host : String) (c : ContractCtx)
    (envOf : Bool → AttemptEnv) (useSolcInput : Bool) : List Attempt :=
  if h : (submitAttempt cfg host c (envOf useSolcInput) useSolcInput).outcome = Outcome.failed
      ∧ useSolcInput = false ∧ cfg.fallbackOnSolcInput = true then
    submitAttempt cfg host c (envOf useSolcInput) useSolcInput ::
      submit cfg host c envOf true
  else
    [submitAttempt cfg host c (envOf useSolcInput) useSolcInput]
termination_by (if useSolcInput then 0 else 1)
decreasing_by simp [h.2.1]

-- ===== Batch driver (lines 96-144, 405-407) =====

def getEtherscanHost (chainId : String) : Option String :=
  if chainId = "1" then some "http://api.etherscan.io"
  else if chainId = "3" then some "http://api-ropsten.etherscan.io"
  else if chainId = "4" then some "http://api-rinkeby.etherscan.io"
  else if chainId = "5" then some "http://api-goerli.etherscan.io"
  else if chainId = "42" then some "http://api-kovan.etherscan.io"
  else if chainId = "97" then some "https://api-testnet.bscscan.com"
  else if chainId = "56" then some "https://api.bscscan.com"
  else if chainId = "128" then some "https://api.hecoinfo.com"
  else if chainId = "256" then some "https://api-testnet.hecoinfo.com"
  else none

inductive BatchResult where
  | unsupportedNetwork (chainId : String)
  | completed (results : List (String × List Attempt))
deriving Repr, DecidableEq

def submitSources (chainId : String) (cfg : Config) (contracts : List ContractCtx)
    (envOf : String → Bool → AttemptEnv) : BatchResult :=
  match getEtherscanHost chainId with
  | none => BatchResult.unsupportedNetwork chainId
  | some host =>
    BatchResult.completed
      (contracts.map (fun c => (c.name, submit cfg host c (envOf c.name) false)))

-- every externally visible action of a batch run
def batchActions : BatchResult → List Action
  | BatchResult.unsupportedNetwork _ => []
  | BatchResult.completed rs =>
    rs.foldr (fun r acc => (r.2.foldr (fun a acc2 => a.actions ++ acc2) []) ++ acc) []

-- ===== Concrete fixtures (used by witnesses and counterexamples) =====

def exSource : String := "// SPDX-License-Identifier: MIT\npragma solidity ^0.6.8;\n"

def exEntry : SourceEntry := { content := exSource, extra := [("keccak256", "0xhash")] }

def exSettings : Settings :=
  { compilationTarget := some [("A.sol", "Foo")], libraries := none,
    other := [("optimizer", "on")] }

def exMetadata : Metadata :=
  { language := "Solidity", compiler := { version := "0.6.8" }, settings := exSettings,
    sources := [("A.sol", exEntry)] }

def exDeployment : Deployment :=
  { address := "0x123", metadata := some exMetadata, abi := [], args := none,
    libraries := none, solcInputHash := some "h" }

def exCtx : ContractCtx := { name := "Foo", deployment := exDeployment }

def exConfig : Config :=
  { etherscanApiKey := some "KEY", license := none, fallbackOnSolcInput := true,
    forceLicense := false }

def exHost : String := "http://api.etherscan.io"

def exFullInput : SolcInput :=
  { language := "Solidity"
    settings := { compilationTarget := none, libraries := none, other := [] }
    sources := [("A.sol", { content := exSource, extra := [] })] }

-- an environment in which the contract is not yet verified, submission is
-- accepted, and polling reaches a terminal failure after one pending tick
def exFailEnv : AttemptEnv :=
  { abiResp := { status := "0", result := "Contract source code not verified" }
    parsedAbiResult := none
    solcInputFile := some exFullInput
    encodeArgs := fun _ _ => "0xdeadbeef"
    submitResp := { status := "1", result := "guid123", message := "OK" }
    statusResponses :=
      [{ status := "0", result := "Pending in queue", message := "NOTOK" },
       { status := "0", result := "Fail - Unable to verify", message := "NOTOK" }] }

-- same environment but with a poll that ends in success
def exOkEnv : AttemptEnv :=
  { exFailEnv with
    statusResponses :=
      [{ status := "0", result := "Pending in queue", message := "NOTOK" },
       { status := "1", result := "Pass - Verified", message := "OK" }] }

-- the payload the fixture pipeline POSTs in metadata mode
def exPostData : PostData :=
  mkPostData exConfig exDeployment (buildMetadataSolcInput exMetadata)
    "A.sol:Foo" "0.6.8" none 3

-- fixture whose getabi response has a non-"0" status and an unparsable result
def exBadAbiEnv : AttemptEnv :=
  { exOkEnv with
    abiResp := { status := "1", result := "Contract source code not verified" }
    parsedAbiResult := none }

-- fixture deployment: constructor args recorded, but the ABI has no
-- constructor entry
def exNoCtorDeployment : Deployment :=
  { exDeployment with args := some ["7"], abi := [{ type := "function", inputs := [] }] }

def exNoCtorCtx : ContractCtx := { name := "Foo", deployment := exNoCtorDeployment }

-- fixture with an ambiguous (two-entry) compilationTarget
def ct2Metadata : Metadata :=
  { exMetadata with
    settings := { exSettings with
      compilationTarget := some [("A.sol", "Foo"), ("B.sol", "Bar")] } }

def ct2Ctx : ContractCtx :=
  { name := "Foo", deployment := { exDeployment with metadata := some ct2Metadata } }

-- fixture with no compilationTarget at all
def noTgtMetadata : Metadata :=
  { exMetadata with settings := { exSettings with compilationTarget := none } }

def noTgtCtx : ContractCtx :=
  { name := "Foo", deployment := { exDeployment with metadata := some noTgtMetadata } }

-- configs for the license-mismatch scenario
def exMismatchCfg : Config := { exConfig with license := some "GPL-3.0" }

def exForceCfg : Config := { exMismatchCfg with forceLicense := true }

-- ===== Helper lemmas =====

theorem alookup_setKey_self {α : Type} (m : List (String × α)) (k : String) (v : α) :
    alookup (setKey m k v) k = some v := by
  induction m with
  | nil => simp [setKey, alookup]
  | cons x t ih =>
    obtain ⟨k1, v1⟩ := x
    by_cases h : k1 = k
    · simp [setKey, h, alookup]
    · simp [setKey, h, alookup, ih]

theorem alookup_setKey_ne {α : Type} (m : List (String × α)) (k k' : String) (v : α)
    (h : k' ≠ k) : alookup (setKey m k v) k' = alookup m k' := by
  induction m with
  | nil => simp [setKey, alookup, Ne.symm h]
  | cons x t ih =>
    obtain ⟨k1, v1⟩ := x
    by_cases hk : k1 = k
    · subst hk
      simp [setKey, alookup, Ne.symm h]
    · simp [setKey, hk, alookup, ih]

theorem setKey_lookup_eq {α : Type} (m : List (String × α)) (k : String) (v : α)
    (h : alookup m k = some v) : setKey m k v = m := by
  induction m with
  | nil => simp [alookup] at h
  | cons x t ih =>
    obtain ⟨k1, v1⟩ := x
    by_cases hk : k1 = k
    · subst hk
      simp [alookup] at h
      simp [setKey, h]
    · simp [alookup, hk] at h
      simp [setKey, hk, ih h]

theorem mergeFold_keeps (cnp n a : String) :
    ∀ ls : List (String × String), n ∉ ls.map Prod.fst →
    ∀ (m : List (String × List (String × String))) (inner : List (String × String)),
      alookup m cnp = some inner → alookup inner n = some a →
      ∃ inner2, alookup (ls.foldl (mergeStep cnp) m) cnp = some inner2 ∧
        alookup inner2 n = some a := by
  intro ls
  induction ls with
  | nil => intro _ m inner h1 h2; exact ⟨inner, h1, h2⟩
  | cons x t ih =>
    intro hn m inner h1 h2
    simp only [List.map_cons, List.mem_cons, not_or] at hn
    have hstep : alookup (mergeStep cnp m x) cnp = some (setKey inner x.1 x.2) := by
      simp only [mergeStep, h1, Option.getD_some]
      exact alookup_setKey_self ..
    have h2s : alookup (setKey inner x.1 x.2) n = some a := by
      rw [alookup_setKey_ne _ _ _ _ hn.1]
      exact h2
    exact ih hn.2 (mergeStep cnp m x) _ hstep h2s

theorem mergeFold_binds (cnp : String) :
    ∀ ls : List (String × String), (ls.map Prod.fst).Nodup →
    ∀ m : List (String × List (String × String)),
    ∀ nv ∈ ls,
      ∃ inner2, alookup (ls.foldl (mergeStep cnp) m) cnp = some inner2 ∧
        alookup inner2 nv.1 = some nv.2 := by
  intro ls
  induction ls with
  | nil => intro _ m nv hm; cases hm
  | cons x t ih =>
    intro hnd m nv hm
    simp only [List.map_cons, List.nodup_cons] at hnd
    rw [List.foldl_cons]
    rcases List.mem_cons.mp hm with hm1 | hm1
    · subst hm1
      have hstep : alookup (mergeStep cnp m nv) cnp =
          some (setKey ((alookup m cnp).getD []) nv.1 nv.2) := by
        simp only [mergeStep]
        exact alookup_setKey_self ..
      exact mergeFold_keeps cnp nv.1 nv.2 t hnd.1 _ _ hstep (alookup_setKey_self ..)
    · exact ih hnd.2 (mergeStep cnp m x) nv hm1

theorem mergeFold_id (cnp : String) :
    ∀ (ls : List (String × String)) (m : List (String × List (String × String))),
      (∀ nv ∈ ls, ∃ inner, alookup m cnp = some inner ∧ alookup inner nv.1 = some nv.2) →
      ls.foldl (mergeStep cnp) m = m := by
  intro ls
  induction ls with
  | nil => intro m _; rfl
  | cons x t ih =>
    intro m h
    obtain ⟨inner, h1, h2⟩ := h x (List.mem_cons_self ..)
    have hstep : mergeStep cnp m x = m := by
      simp only [mergeStep, h1, Option.getD_some]
      rw [setKey_lookup_eq inner x.1 x.2 h2, setKey_lookup_eq m cnp inner h1]
    rw [List.foldl_cons, hstep]
    exact ih m (fun nv hm => h nv (List.mem_cons_of_mem _ hm))

theorem map_fst_buildSources (l : List (String × SourceEntry)) :
    (l.map (fun p => (p.1, ({ content := p.2.content, extra := [] } : SourceEntry)))).map
        Prod.fst = l.map Prod.fst := by
  induction l with
  | nil => rfl
  | cons x t ih => simp [ih]

theorem getLicenseType_bounds (s : String) (n : Nat) (h : getLicenseType s = some n) :
    1 ≤ n ∧ n ≤ 13 := by
  unfold getLicenseType at h
  by_cases h1 : s = "None"
  · rw [if_pos h1] at h; injection h with e; omega
  rw [if_neg h1] at h
  by_cases h2 : s = "UNLICENSED"
  · rw [if_pos h2] at h; injection h with e; omega
  rw [if_neg h2] at h
  by_cases h3 : s = "MIT"
  · rw [if_pos h3] at h; injection h with e; omega
  rw [if_neg h3] at h
  by_cases h4 : s = "GPL-2.0"
  · rw [if_pos h4] at h; injection h with e; omega
  rw [if_neg h4] at h
  by_cases h5 : s = "GPL-3.0"
  · rw [if_pos h5] at h; injection h with e; omega
  rw [if_neg h5] at h
  by_cases h6 : s = "LGPL-2.1"
  · rw [if_pos h6] at h; injection h with e; omega
  rw [if_neg h6] at h
  by_cases h7 : s = "LGPL-3.0"
  · rw [if_pos h7] at h; injection h with e; omega
  rw [if_neg h7] at h
  by_cases h8 : s = "BSD-2-Clause"
  · rw [if_pos h8] at h; injection h with e; omega
  rw [if_neg h8] at h
  by_cases h9 : s = "BSD-3-Clause"
  · rw [if_pos h9] at h; injection h with e; omega
  rw [if_neg h9] at h
  by_cases h10 : s = "MPL-2.0"
  · rw [if_pos h10] at h; injection h with e; omega
  rw [if_neg h10] at h
  by_cases h11 : s = "OSL-3.0"
  · rw [if_pos h11] at h; injection h with e; omega
  rw [if_neg h11] at h
  by_cases h12 : s = "Apache-2.0"
  · rw [if_pos h12] at h; injection h with e; omega
  rw [if_neg h12] at h
  by_cases h13 : s = "AGPL-3.0"
  · rw [if_pos h13] at h; injection h with e; omega
  rw [if_neg h13] at h
  exact Option.noConfusion h

theorem resolveFinal_ok (l : Option String) (s : String) (n : Nat)
    (h : resolveFinal l = LicenseOutcome.ok s n) : getLicenseType s = some n := by
  unfold resolveFinal at h
  cases hg : getLicenseType (l.getD "") with
  | none => simp only [hg] at h; cases h
  | some m =>
    simp only [hg] at h
    injection h with h1 h2
    subst h1; subst h2
    exact hg

theorem resolveLicense_ok (a b : Option String) (f : Bool) (s : String) (n : Nat)
    (h : resolveLicense a b f = LicenseOutcome.ok s n) : getLicenseType s = some n := by
  unfold resolveLicense at h
  -- split_ifs closes the three error branches itself (a constructor clash in
  -- the hypothesis); the three surviving branches end in resolveFinal
  split_ifs at h <;> exact resolveFinal_ok _ _ _ h

theorem afterBuild_postEq (cfg : Config) (host : String) (c : ContractCtx)
    (env : AttemptEnv) (u : Bool) (cnp cv : String) (si : SolcInput) (lt : Nat) :
    (afterBuild cfg host c env u cnp cv si lt).post =
      some (mkPostData cfg c.deployment si cnp cv
        (mkConstructorArguments env c.deployment) lt) := by
  unfold afterBuild
  split_ifs <;> rfl

-- ===== Claim theorems =====

/-- C5: in the batch driver, chain id "1" resolves to the explorer host
http://api.etherscan.io, and any chain id outside the fixed 9-entry table
(1, 3, 4, 5, 42, 56, 97, 128, 256) aborts the entire batch with an
unsupported-network error before any per-contract work or HTTP call is
made. -/
theorem C5_network_table :
    getEtherscanHost "1" = some "http://api.etherscan.io" ∧
    ∀ chainId : String,
      chainId ∉ (["1", "3", "4", "5", "42", "56", "97", "128", "256"] : List String) →
      ∀ (cfg : Config) (contracts : List ContractCtx)
        (envOf : String → Bool → AttemptEnv),
        submitSources chainId cfg contracts envOf =
          BatchResult.unsupportedNetwork chainId ∧
        batchActions (submitSources chainId cfg contracts envOf) = [] := by
  constructor
  · rfl
  · intro cid hmem cfg cs envOf
    simp only [List.mem_cons, List.mem_singleton, not_or] at hmem
    have hnone : getEtherscanHost cid = none := by
      unfold getEtherscanHost
      rw [if_neg hmem.1, if_neg hmem.2.1, if_neg hmem.2.2.1, if_neg hmem.2.2.2.1,
        if_neg hmem.2.2.2.2.1, if_neg hmem.2.2.2.2.2.2.1, if_neg hmem.2.2.2.2.2.1,
        if_neg hmem.2.2.2.2.2.2.2.1, if_neg hmem.2.2.2.2.2.2.2.2.1]
    constructor
    · simp only [submitSources, hnone]
    · simp only [submitSources, hnone, batchActions]

/-- Witness for C5 at the concrete unsupported chain id "999". -/
theorem C5_network_table_witness :
    submitSources "999" exConfig [exCtx] (fun _ _ => exOkEnv) =
      BatchResult.unsupportedNetwork "999" ∧
    batchActions (submitSources "999" exConfig [exCtx] (fun _ _ => exOkEnv)) = [] :=
  C5_network_table.2 "999" (by decide) exConfig [exCtx] (fun _ _ => exOkEnv)

/-- C6: the compiler input built in metadata mode has no compilationTarget in
its settings (the rest of the settings is copied), its language is the
metadata's language, its sources mapping has exactly the keys of
metadata.sources, and every source entry retains only the content field. -/
theorem C6_metadata_mode_input (md : Metadata) :
    (buildMetadataSolcInput md).settings.compilationTarget = none ∧
    (buildMetadataSolcInput md).settings.libraries = md.settings.libraries ∧
    (buildMetadataSolcInput md).settings.other = md.settings.other ∧
    (buildMetadataSolcInput md).language = md.language ∧
    (buildMetadataSolcInput md).sources.map Prod.fst = md.sources.map Prod.fst ∧
    ∀ p e, (p, e) ∈ (buildMetadataSolcInput md).sources →
      e.extra = [] ∧ ∃ e0, (p, e0) ∈ md.sources ∧ e.content = e0.content := by
  refine ⟨rfl, rfl, rfl, rfl, map_fst_buildSources _, ?_⟩
  intro p e hmem
  simp only [buildMetadataSolcInput, List.mem_map] at hmem
  obtain ⟨⟨p0, e0⟩, hm0, heq⟩ := hmem
  cases heq
  exact ⟨rfl, e0, hm0, rfl⟩

/-- Witness for C6 at the concrete metadata fixture. -/
theorem C6_metadata_mode_input_witness :
    (buildMetadataSolcInput exMetadata).settings.compilationTarget = none ∧
    ({ content := exSource, extra := [] } : SourceEntry).extra = [] ∧
    ∃ e0, ("A.sol", e0) ∈ exMetadata.sources ∧
      ({ content := exSource, extra := [] } : SourceEntry).content = e0.content :=
  ⟨(C6_metadata_mode_input exMetadata).1,
   (C6_metadata_mode_input exMetadata).2.2.2.2.2 "A.sol"
     { content := exSource, extra := [] } (by decide)⟩

/-- C7: merging a deployment's declared libraries into the compiler-input
settings stores settings.libraries[contractNamePath][libraryName] = address
for every declared library (whether or not settings.libraries pre-existed),
and the merge is idempotent. -/
theorem C7_library_merge (s : Settings) (ls : List (String × String)) (cnp : String)
    (hnd : (ls.map Prod.fst).Nodup) :
    (∀ nv ∈ ls, libAddr (mergeLibraries (some ls) cnp s) cnp nv.1 = some nv.2) ∧
    mergeLibraries (some ls) cnp (mergeLibraries (some ls) cnp s) =
      mergeLibraries (some ls) cnp s := by
  have hb := mergeFold_binds cnp ls hnd (s.libraries.getD [])
  constructor
  · intro nv hm
    obtain ⟨inner2, hl, ha⟩ := hb nv hm
    simp only [mergeLibraries, libAddr, hl, ha]
  · simp only [mergeLibraries, Option.getD_some]
    have hid : ls.foldl (mergeStep cnp) (ls.foldl (mergeStep cnp) (s.libraries.getD []))
        = ls.foldl (mergeStep cnp) (s.libraries.getD []) := by
      apply mergeFold_id
      intro nv hm
      exact hb nv hm
    rw [hid]

/-- Witness for C7: libraries {L1 : 0xaaa} merged at contract path
"A.sol:Foo" into the fixture settings. -/
theorem C7_library_merge_witness :
    libAddr (mergeLibraries (some [("L1", "0xaaa")]) "A.sol:Foo" exSettings)
        "A.sol:Foo" "L1" = some "0xaaa" ∧
    mergeLibraries (some [("L1", "0xaaa")]) "A.sol:Foo"
        (mergeLibraries (some [("L1", "0xaaa")]) "A.sol:Foo" exSettings) =
      mergeLibraries (some [("L1", "0xaaa")]) "A.sol:Foo" exSettings :=
  ⟨(C7_library_merge exSettings [("L1", "0xaaa")] "A.sol:Foo" (by decide)).1
     ("L1", "0xaaa") (by decide),
   (C7_library_merge exSettings [("L1", "0xaaa")] "A.sol:Foo" (by decide)).2⟩

/-- C2: a status-poll response with status "1" is terminal success; a
non-success response whose result text is exactly "Pending in queue" is not
terminal and the loop goes on (after the fixed 10-second sleep that precedes
every tick); any other response is terminal failure and the failure logs
carry the explorer's message/result and the redacted submission payload (api
key masked to "XXXXXX", source code elided to "..."). -/
theorem C2_poll_classification (host guid : String) (sc : StatusCtx) (d : StatusData)
    (rest : List StatusData) :
    (d.status = "1" →
      checkStatus host guid sc d = (some "success", [Action.httpCheckStatus host guid])) ∧
    (d.status ≠ "1" → d.result = "Pending in queue" →
      checkStatus host guid sc d = (none, [Action.httpCheckStatus host guid]) ∧
      pollLoop host guid sc (d :: rest) =
        ((pollLoop host guid sc rest).1,
          Action.sleep (10 * 1000) :: Action.httpCheckStatus host guid ::
            (pollLoop host guid sc rest).2)) ∧
    (d.status ≠ "1" → d.result ≠ "Pending in queue" →
      checkStatus host guid sc d =
        (some "failure",
          [Action.httpCheckStatus host guid,
           Action.logFailedVerify sc.name d.message d.result,
           Action.logRedacted (redactedOf sc)])) := by
  refine ⟨?_, ?_, ?_⟩
  · intro h1
    simp [checkStatus, h1]
  · intro h1 h2
    constructor
    · simp [checkStatus, h1, h2]
    · simp [pollLoop, checkStatus, h1, h2]
  · intro h1 h2
    simp [checkStatus, h1, h2]

/-- Witness for C2 at concrete pending and failing responses. -/
theorem C2_poll_classification_witness :
    (checkStatus exHost "guid123" ⟨"Foo", "0x123", "A.sol:Foo", "0.6.8", none, 3⟩
        ⟨"0", "Pending in queue", "NOTOK"⟩ =
      (none, [Action.httpCheckStatus exHost "guid123"]) ∧
      pollLoop exHost "guid123" ⟨"Foo", "0x123", "A.sol:Foo", "0.6.8", none, 3⟩
          (⟨"0", "Pending in queue", "NOTOK"⟩ :: [⟨"0", "Fail - Unable to verify", "NOTOK"⟩]) =
        ((pollLoop exHost "guid123" ⟨"Foo", "0x123", "A.sol:Foo", "0.6.8", none, 3⟩
            [⟨"0", "Fail - Unable to verify", "NOTOK"⟩]).1,
          Action.sleep (10 * 1000) :: Action.httpCheckStatus exHost "guid123" ::
            (pollLoop exHost "guid123" ⟨"Foo", "0x123", "A.sol:Foo", "0.6.8", none, 3⟩
              [⟨"0", "Fail - Unable to verify", "NOTOK"⟩]).2)) ∧
    checkStatus exHost "guid123" ⟨"Foo", "0x123", "A.sol:Foo", "0.6.8", none, 3⟩
        ⟨"0", "Fail - Unable to verify", "NOTOK"⟩ =
      (some "failure",
        [Action.httpCheckStatus exHost "guid123",
         Action.logFailedVerify "Foo" "NOTOK" "Fail - Unable to verify",
         Action.logRedacted (redactedOf ⟨"Foo", "0x123", "A.sol:Foo", "0.6.8", none, 3⟩)]) :=
  ⟨(C2_poll_classification exHost "guid123" ⟨"Foo", "0x123", "A.sol:Foo", "0.6.8", none, 3⟩
      ⟨"0", "Pending in queue", "NOTOK"⟩ [⟨"0", "Fail - Unable to verify", "NOTOK"⟩]).2.1
      (by decide) rfl,
   (C2_poll_classification exHost "guid123" ⟨"Foo", "0x123", "A.sol:Foo", "0.6.8", none, 3⟩
      ⟨"0", "Fail - Unable to verify", "NOTOK"⟩ []).2.2 (by decide) (by decide)⟩

/-- C8: every payload that is actually POSTed to the explorer carries a
licenseType in 1..13 — on every control path of the per-contract pipeline
that reaches the submission POST, the effective license has been resolved
through the fixed table to a defined integer code. -/
theorem C8_posted_license_in_table (cfg : Config) (host : String) (c : ContractCtx)
    (env : AttemptEnv) (u : Bool) (p : PostData)
    (h : (submitAttempt cfg host c env u).post = some p) :
    1 ≤ p.licenseType ∧ p.licenseType ≤ 13 := by
  unfold submitAttempt at h
  split at h
  · simp at h
  split at h
  · simp at h
  split at h
  · simp at h
  split at h
  · simp at h
  split at h
  case _ lic lt heq =>
    split at h
    · simp at h
    rw [afterBuild_postEq] at h
    injection h with h1
    subst h1
    exact getLicenseType_bounds _ _ (resolveLicense_ok _ _ _ _ _ heq)
  case _ e heq =>
    simp at h

/-- Witness for C8: the fixture pipeline POSTs a payload with license code 3. -/
theorem C8_posted_license_in_table_witness :
    1 ≤ exPostData.licenseType ∧ exPostData.licenseType ≤ 13 :=
  C8_posted_license_in_table exConfig exHost exCtx exOkEnv false exPostData (by decide)

/-- C9: when the getabi pre-check response has a status other than "0" but its
result cannot be parsed as JSON, the contract is aborted: the per-contract
pipeline returns with no verification POST (its only action is the getabi
query), no fallback retry happens, and the batch goes on with the next
contract. -/
theorem C9_abi_parse_error_aborts (chainId : String) (cfg : Config) (c : ContractCtx)
    (rest : List ContractCtx) (envOf : String → Bool → AttemptEnv) (host : String)
    (hh : getEtherscanHost chainId = some host)
    (h1 : (envOf c.name false).abiResp.status ≠ "0")
    (h2 : (envOf c.name false).parsedAbiResult = none) :
    submitAttempt cfg host c (envOf c.name false) false =
      { useSolcInput := false, actions := [Action.httpGetAbi host c.deployment.address],
        post := none, outcome := Outcome.abortedAbiParse } ∧
    submit cfg host c (envOf c.name) false =
      [{ useSolcInput := false, actions := [Action.httpGetAbi host c.deployment.address],
         post := none, outcome := Outcome.abortedAbiParse }] ∧
    submitSources chainId cfg (c :: rest) envOf =
      BatchResult.completed
        ((c.name,
          [{ useSolcInput := false,
             actions := [Action.httpGetAbi host c.deployment.address],
             post := none, outcome := Outcome.abortedAbiParse }]) ::
          rest.map (fun c2 => (c2.name, submit cfg host c2 (envOf c2.name) false))) := by
  have hstage : stageAbiCheck (envOf c.name false) = some Outcome.abortedAbiParse := by
    unfold stageAbiCheck
    rw [if_pos h1, h2]
  have hatt : submitAttempt cfg host c (envOf c.name false) false =
      { useSolcInput := false, actions := [Action.httpGetAbi host c.deployment.address],
        post := none, outcome := Outcome.abortedAbiParse } := by
    simp only [submitAttempt, hstage]
  have hsub : submit cfg host c (envOf c.name) false =
      [{ useSolcInput := false, actions := [Action.httpGetAbi host c.deployment.address],
         post := none, outcome := Outcome.abortedAbiParse }] := by
    unfold submit
    rw [dif_neg]
    · rw [hatt]
    · intro hcon
      rw [hatt] at hcon
      simp at hcon
  refine ⟨hatt, hsub, ?_⟩
  simp only [submitSources, hh, List.map_cons, hsub]

/-- Witness for C9 at the concrete bad-abi environment. -/
theorem C9_abi_parse_error_aborts_witness :
    submitAttempt exConfig exHost exCtx exBadAbiEnv false =
      { useSolcInput := false, actions := [Action.httpGetAbi exHost exCtx.deployment.address],
        post := none, outcome := Outcome.abortedAbiParse } ∧
    submit exConfig exHost exCtx (fun _ => exBadAbiEnv) false =
      [{ useSolcInput := false, actions := [Action.httpGetAbi exHost exCtx.deployment.address],
         post := none, outcome := Outcome.abortedAbiParse }] ∧
    submitSources "1" exConfig (exCtx :: [exNoCtorCtx]) (fun _ _ => exBadAbiEnv) =
      BatchResult.completed
        ((exCtx.name,
          [{ useSolcInput := false,
             actions := [Action.httpGetAbi exHost exCtx.deployment.address],
             post := none, outcome := Outcome.abortedAbiParse }]) ::
          [exNoCtorCtx].map (fun c2 =>
            (c2.name, submit exConfig exHost c2 ((fun _ _ => exBadAbiEnv) c2.name) false))) :=
  C9_abi_parse_error_aborts "1" exConfig exCtx [exNoCtorCtx] (fun _ _ => exBadAbiEnv)
    exHost rfl (by decide) rfl

/-- C10: when the deployment record has args but its ABI contains no entry of
type "constructor", no constructor-argument encoding is attempted and no
error is raised — the pipeline still POSTs, with the constructorArguements
field left undefined in the payload. -/
theorem C10_args_without_constructor (cfg : Config) (host : String) (c : ContractCtx)
    (env : AttemptEnv) (md : Metadata) (fp cn : String) (entry : SourceEntry)
    (args : List String) (lic : String) (lt : Nat)
    (hAbi : stageAbiCheck env = none)
    (hMd : c.deployment.metadata = some md)
    (hTgt : extractTarget md.settings.compilationTarget = some (fp, cn))
    (hSrc : alookup md.sources fp = some entry)
    (hLic : resolveLicense cfg.license (extractOneLicenseFromSourceFile entry.content)
        cfg.forceLicense = LicenseOutcome.ok lic lt)
    (hArgs : c.deployment.args = some args)
    (hCtor : c.deployment.abi.find? (fun v => v.type == "constructor") = none) :
    mkConstructorArguments env c.deployment = none ∧
    ∃ p, (submitAttempt cfg host c env false).post = some p ∧
      p.constructorArguements = none := by
  have hca : mkConstructorArguments env c.deployment = none := by
    simp only [mkConstructorArguments, hArgs, hCtor]
  refine ⟨hca, ?_⟩
  simp only [submitAttempt, hAbi, hMd, hTgt, hSrc, hLic, Bool.false_eq_true, if_false]
  exact ⟨_, afterBuild_postEq .., by simp [mkPostData, hca]⟩

/-- Witness for C10: args ["7"] with a constructor-free ABI still POSTs, with
no constructor-argument payload. -/
theorem C10_args_without_constructor_witness :
    mkConstructorArguments exOkEnv exNoCtorCtx.deployment = none ∧
    ∃ p, (submitAttempt exConfig exHost exNoCtorCtx exOkEnv false).post = some p ∧
      p.constructorArguements = none :=
  C10_args_without_constructor exConfig exHost exNoCtorCtx exOkEnv exMetadata
    "A.sol" "Foo" exEntry ["7"] "MIT" 3 (by decide) rfl (by decide) (by decide)
    (by decide) rfl (by decide)

/-- C1: with extracted license "MIT" and user override "GPL-3.0", license
resolution fails with the mismatch error when forceOverride is false and the
contract is aborted with no submission; when forceOverride is true the user
override wins: the effective license is "GPL-3.0" and the resolved explorer
license-type code is 5 (and that is the code the POSTed payload carries). -/
theorem C1_license_mismatch_force (cfg : Config) (host : String) (c : ContractCtx)
    (env : AttemptEnv) (u : Bool) (md : Metadata) (fp cn : String) (entry : SourceEntry)
    (hAbi : stageAbiCheck env = none)
    (hMd : c.deployment.metadata = some md)
    (hTgt : extractTarget md.settings.compilationTarget = some (fp, cn))
    (hSrc : alookup md.sources fp = some entry)
    (hExt : extractOneLicenseFromSourceFile entry.content = some "MIT")
    (hLic : cfg.license = some "GPL-3.0") :
    (cfg.forceLicense = false →
      resolveLicense cfg.license (extractOneLicenseFromSourceFile entry.content)
          cfg.forceLicense = LicenseOutcome.errMismatch ∧
      submitAttempt cfg host c env u =
        { useSolcInput := u, actions := [Action.httpGetAbi host c.deployment.address],
          post := none, outcome := Outcome.abortedLicense LicenseOutcome.errMismatch }) ∧
    (cfg.forceLicense = true →
      resolveLicense cfg.license (extractOneLicenseFromSourceFile entry.content)
          cfg.forceLicense = LicenseOutcome.ok "GPL-3.0" 5 ∧
      ∃ p, (submitAttempt cfg host c env false).post = some p ∧
        p.licenseType = 5) := by
  constructor
  · intro hF
    have hres : resolveLicense cfg.license (extractOneLicenseFromSourceFile entry.content)
        cfg.forceLicense = LicenseOutcome.errMismatch := by
      rw [hExt, hLic, hF]
      decide
    refine ⟨hres, ?_⟩
    simp only [submitAttempt, hAbi, hMd, hTgt, hSrc, hres]
  · intro hF
    have hres : resolveLicense cfg.license (extractOneLicenseFromSourceFile entry.content)
        cfg.forceLicense = LicenseOutcome.ok "GPL-3.0" 5 := by
      rw [hExt, hLic, hF]
      decide
    refine ⟨hres, ?_⟩
    simp only [submitAttempt, hAbi, hMd, hTgt, hSrc, hres, Bool.false_eq_true, if_false]
    exact ⟨_, afterBuild_postEq .., rfl⟩

/-- Witness for C1: the fixture contract (extracted MIT) under override
GPL-3.0, once without and once with force. -/
theorem C1_license_mismatch_force_witness :
    (resolveLicense exMismatchCfg.license
        (extractOneLicenseFromSourceFile exEntry.content) exMismatchCfg.forceLicense =
      LicenseOutcome.errMismatch ∧
     submitAttempt exMismatchCfg exHost exCtx exOkEnv false =
      { useSolcInput := false,
        actions := [Action.httpGetAbi exHost exCtx.deployment.address],
        post := none, outcome := Outcome.abortedLicense LicenseOutcome.errMismatch }) ∧
    (resolveLicense exForceCfg.license
        (extractOneLicenseFromSourceFile exEntry.content) exForceCfg.forceLicense =
      LicenseOutcome.ok "GPL-3.0" 5 ∧
     ∃ p, (submitAttempt exForceCfg exHost exCtx exOkEnv false).post = some p ∧
       p.licenseType = 5) :=
  ⟨(C1_license_mismatch_force exMismatchCfg exHost exCtx exOkEnv false exMetadata
      "A.sol" "Foo" exEntry (by decide) rfl (by decide) (by decide) (by decide) rfl).1 rfl,
   (C1_license_mismatch_force exForceCfg exHost exCtx exOkEnv false exMetadata
      "A.sol" "Foo" exEntry (by decide) rfl (by decide) (by decide) (by decide) rfl).2 rfl⟩

/-- C3: when a contract's verification reaches terminal failure with
fallbackOnSolcInput set and the failed attempt not already in full-input
mode, the whole per-contract pipeline is re-run exactly once in full-input
mode; with fallback disabled, or when the attempt already used the full
input, there is no retry. -/
theorem C3_single_fallback_retry (cfg : Config) (host : String) (c : ContractCtx)
    (envOf : Bool → AttemptEnv) :
    ((submitAttempt cfg host c (envOf false) false).outcome = Outcome.failed →
      cfg.fallbackOnSolcInput = true →
      submit cfg host c envOf false =
        [submitAttempt cfg host c (envOf false) false,
         submitAttempt cfg host c (envOf true) true]) ∧
    (cfg.fallbackOnSolcInput = false →
      submit cfg host c envOf false = [submitAttempt cfg host c (envOf false) false]) ∧
    ((submitAttempt cfg host c (envOf false) false).outcome ≠ Outcome.failed →
      submit cfg host c envOf false = [submitAttempt cfg host c (envOf false) false]) ∧
    submit cfg host c envOf true = [submitAttempt cfg host c (envOf true) true] := by
  have htrue : submit cfg host c envOf true =
      [submitAttempt cfg host c (envOf true) true] := by
    unfold submit
    rw [dif_neg]
    intro hcon
    simp at hcon
  refine ⟨?_, ?_, ?_, htrue⟩
  · intro hfail hfb
    unfold submit
    rw [dif_pos ⟨hfail, rfl, hfb⟩, htrue]
  · intro hfb
    unfold submit
    rw [dif_neg]
    intro hcon
    simp [hcon.2.2] at hfb
  · intro hfail
    unfold submit
    rw [dif_neg]
    intro hcon
    exact hfail hcon.1

/-- Witness for C3: with the failing-poll fixture environment and fallback
enabled, the run is exactly the metadata-mode attempt followed by one
full-input attempt. -/
theorem C3_single_fallback_retry_witness :
    submit exConfig exHost exCtx (fun _ => exFailEnv) false =
      [submitAttempt exConfig exHost exCtx exFailEnv false,
       submitAttempt exConfig exHost exCtx exFailEnv true] :=
  (C3_single_fallback_retry exConfig exHost exCtx (fun _ => exFailEnv)).1 (by decide) rfl

/-- C4 counterexample: a compilationTarget with two entries is NOT a hard
error — the pipeline silently uses the first entry and the submission
proceeds (here all the way to a verified outcome), refuting the claim that
ambiguity aborts the contract with no submission. -/
theorem C4_target_ambiguity_counterexample :
    extractTarget (some [("A.sol", "Foo"), ("B.sol", "Bar")]) = some ("A.sol", "Foo") ∧
    (submitAttempt exConfig exHost ct2Ctx exOkEnv false).post ≠ none ∧
    (submitAttempt exConfig exHost ct2Ctx exOkEnv false).outcome = Outcome.verified := by
  refine ⟨by decide, by decide, by decide⟩

/-- C4 (amended): absence of a usable compilationTarget — the mapping
missing, empty, or its first entry carrying an empty filepath or contract
name — aborts the contract (no submission); a mapping with more than one
entry is not an error: the first entry is used as the target. -/
theorem C4_target_resolution (cfg : Config) (host : String) (c : ContractCtx)
    (env : AttemptEnv) (u : Bool) (md : Metadata)
    (hAbi : stageAbiCheck env = none)
    (hMd : c.deployment.metadata = some md) :
    ((md.settings.compilationTarget = none ∨
        md.settings.compilationTarget = some ([] : List (String × String))) →
      submitAttempt cfg host c env u =
        { useSolcInput := u, actions := [Action.httpGetAbi host c.deployment.address],
          post := none, outcome := Outcome.abortedNoTarget }) ∧
    (∀ fp cn rest, md.settings.compilationTarget = some ((fp, cn) :: rest) →
      (fp = "" ∨ cn = "") →
      submitAttempt cfg host c env u =
        { useSolcInput := u, actions := [Action.httpGetAbi host c.deployment.address],
          post := none, outcome := Outcome.abortedNoTarget }) ∧
    (∀ fp cn rest, md.settings.compilationTarget = some ((fp, cn) :: rest) →
      fp ≠ "" → cn ≠ "" →
      extractTarget md.settings.compilationTarget = some (fp, cn)) := by
  refine ⟨?_, ?_, ?_⟩
  · intro hct
    have hx : extractTarget md.settings.compilationTarget = none := by
      rcases hct with hct | hct <;> rw [hct] <;> rfl
    simp only [submitAttempt, hAbi, hMd, hx]
  · intro fp cn rest hct hbad
    have hx : extractTarget md.settings.compilationTarget = none := by
      rw [hct]
      simp only [extractTarget, List.head?]
      rcases hbad with hb | hb <;> simp [hb]
    simp only [submitAttempt, hAbi, hMd, hx]
  · intro fp cn rest hct h1 h2
    rw [hct]
    simp [extractTarget, h1, h2]

/-- Witness for the amended C4: a missing compilationTarget aborts the
fixture contract, and a two-entry mapping resolves to its first entry. -/
theorem C4_target_resolution_witness :
    submitAttempt exConfig exHost noTgtCtx exOkEnv false =
      { useSolcInput := false,
        actions := [Action.httpGetAbi exHost noTgtCtx.deployment.address],
        post := none, outcome := Outcome.abortedNoTarget } ∧
    extractTarget ct2Metadata.settings.compilationTarget = some ("A.sol", "Foo") :=
  ⟨(C4_target_resolution exConfig exHost noTgtCtx exOkEnv false noTgtMetadata
      (by decide) rfl).1 (Or.inl rfl),
   (C4_target_resolution exConfig exHost ct2Ctx exOkEnv false ct2Metadata
      (by decide) rfl).2.2 "A.sol" "Foo" [("B.sol", "Bar")] rfl
      (by decide) (by decide)⟩

end HDE
